import Mathlib

/-!
Shallow embedding of the crypto11 package core (`crypto11.go`): error values,
token lookup (`findToken`), configuration (`Configure`) with its mutation of the
caller-supplied `PKCS11Config`, and `Context.Close`.

Go values are modelled as follows: `int` is `Int`, `uint` is `Nat` (with the
Go conversion `uint(x)` made explicit as reduction modulo 2^64),
`time.Duration` is `Int` (nanoseconds), Go `error` is the inductive `GoError`
distinguishing package-level sentinel values (`errors.New` variables) from
freshly formatted (`fmt.Errorf`) and externally propagated errors, and
fallible calls return `Except GoError`. Pointer-typed arguments and the
in-place mutation of the caller's config struct are modelled with an explicit
heap (`Nat`-addressed store of `PKCS11Config` values); a nil pointer is
`Option.none` and dereferencing it is the distinguished outcome
`ConfigureResult.panicNilDeref`. Calls into the underlying PKCS#11 library
(`pkcs11.New`, `Initialize`, `GetSlotList`, `GetTokenInfo`, `Finalize`,
`Destroy`) are parameters of the embedding (`P11World`), since the library is
an external collaborator.
-/

namespace Crypto11

/-- Go `error` values as they occur in `crypto11.go`: package-level sentinel
values created by `errors.New`, freshly formatted errors from `fmt.Errorf`,
and errors propagated from the underlying PKCS#11 library. Only sentinel
values can usefully be compared against by callers with `==`/`errors.Is`;
a `fmt.Errorf` result is a fresh allocation every time. -/
inductive GoError where
  | sentinel (msg : String)
  | formatted (msg : String)
  | external (msg : String)
deriving DecidableEq

/-- Whether a Go error value is a package-level sentinel that a caller can
compare against with equality. -/
def isSentinel : GoError → Bool
  | .sentinel _ => true
  | .formatted _ => false
  | .external _ => false

/-- `var ErrTokenNotFound = errors.New("crypto11: could not find PKCS#11 token")` -/
def ErrTokenNotFound : GoError := .sentinel "crypto11: could not find PKCS#11 token"

/-- `var ErrKeyNotFound = errors.New("crypto11: could not find PKCS#11 key")` -/
def ErrKeyNotFound : GoError := .sentinel "crypto11: could not find PKCS#11 key"

/-- `var ErrCannotOpenPKCS11 = errors.New("crypto11: could not open PKCS#11")` -/
def ErrCannotOpenPKCS11 : GoError := .sentinel "crypto11: could not open PKCS#11"

/-- `var ErrCannotGetRandomData = errors.New(...)` -/
def ErrCannotGetRandomData : GoError := .sentinel "crypto11: cannot get random data from PKCS#11"

/-- `var ErrUnsupportedKeyType = errors.New(...)` -/
def ErrUnsupportedKeyType : GoError := .sentinel "crypto11: unrecognized key type"

/-- The fields of `pkcs11.TokenInfo` that `crypto11.go` reads: `SerialNumber`,
`Label`, `MaxRwSessionCount` (a Go `uint`). -/
structure TokenInfo where
  serialNumber : String
  label : String
  maxRwSessionCount : Nat
deriving DecidableEq

/-- `const DefaultMaxSessions = 1024` -/
def DefaultMaxSessions : Int := 1024

/-- `type PKCS11Config struct` with its seven fields. `MaxSessions` is a Go
`int`; the two timeouts are `time.Duration` (nanoseconds). -/
structure PKCS11Config where
  path : String
  tokenSerial : String
  tokenLabel : String
  pin : String
  maxSessions : Int
  idleTimeout : Int
  poolWaitTimeout : Int
deriving DecidableEq

/-- Go conversion `uint(x)` from `int` on a 64-bit platform: `x` reduced
modulo `2^64`. -/
def goUint (x : Int) : Nat := (x % (2 : Int) ^ 64).toNat

/-- `findToken` from `crypto11.go` lines 153-167. The method receiver only
supplies `c.ctx.GetTokenInfo`, which is passed here as the function
`getTokenInfo`. For each slot in order: a `GetTokenInfo` failure is returned
at once; otherwise the serial number is compared first, then the label, and
a match returns that slot with its token info; an exhausted list yields
`ErrTokenNotFound`. -/
def findToken (getTokenInfo : Nat → Except GoError TokenInfo)
    (slots : List Nat) (serial label : String) :
    Except GoError (Nat × TokenInfo) :=
  match slots with
  | [] => .error ErrTokenNotFound
  | slot :: rest =>
    match getTokenInfo slot with
    | .error e => .error e
    | .ok tokenInfo =>
      if tokenInfo.serialNumber = serial then .ok (slot, tokenInfo)
      else if tokenInfo.label = label then .ok (slot, tokenInfo)
      else findToken getTokenInfo rest serial label

/-- Modelled from the spec: the "first slot whose token's serial number equals
the requested serial or whose label equals the requested label", as a
`List.find?` over the candidate slots. Used only to compare `findToken`
against the spec's wording. -/
def specFirstMatch (getTokenInfo : Nat → Except GoError TokenInfo)
    (slots : List Nat) (serial label : String) : Option Nat :=
  slots.find? fun s =>
    match getTokenInfo s with
    | .ok ti => decide (ti.serialNumber = serial ∨ ti.label = label)
    | .error _ => false

/-- The arguments `crypto11.go` passes to `pools.NewResourcePool`:
`capacity`, `maxCap` (both Go `int`) and the idle timeout. -/
structure ResourcePoolParams where
  capacity : Int
  maxCap : Int
  idleTimeout : Int
deriving DecidableEq

/-- The `Context` struct as far as `Configure` populates it: the pointer to
the caller's config (`cfg`), the selected slot and token, and the pool
construction parameters. The `ctx *pkcs11.Ctx` field is part of the external
world and carries no further data here. -/
structure Context where
  cfg : Nat
  slot : Nat
  token : TokenInfo
  pool : ResourcePoolParams
deriving DecidableEq

/-- The behaviour of the external PKCS#11 library during `Configure`:
whether `pkcs11.New(path)` returns a non-nil context, the result of
`Initialize`, of `GetSlotList(true)`, and of `GetTokenInfo` per slot. -/
structure P11World where
  newOk : String → Bool
  initResult : Option GoError
  slotList : Except GoError (List Nat)
  getTokenInfo : Nat → Except GoError TokenInfo

/-- The heap of `PKCS11Config` structs, addressed by `Nat` pointers. -/
def Heap : Type := Nat → Option PKCS11Config

/-- Outcome of `Configure`: a runtime panic from dereferencing a nil config
pointer, an error return (`nil` context), or a successful context. -/
inductive ConfigureResult where
  | panicNilDeref
  | err (e : GoError)
  | ok (c : Context)
deriving DecidableEq

/-- The `fmt.Errorf("crypto11: provided max sessions value (%d) exceeds max
value the token supports (%d)", ...)` error from `Configure`. -/
def sessionLimitError (maxSessions : Int) (tokenMax : Nat) : GoError :=
  .formatted ("crypto11: provided max sessions value (" ++ toString maxSessions ++
    ") exceeds max value the token supports (" ++ toString tokenMax ++ ")")

/-- The in-place mutation `if config.MaxSessions == 0 { config.MaxSessions =
DefaultMaxSessions }` at the top of `Configure`, as the value the caller's
struct holds afterwards. -/
def effectiveConfig (c : PKCS11Config) : PKCS11Config :=
  if c.maxSessions = 0 then { c with maxSessions := DefaultMaxSessions } else c

/-- The straight-line body of `Configure` (`crypto11.go` lines 218-253),
after the `MaxSessions` defaulting: `config` here is the value the caller's
struct holds from that point on. In order: the `pkcs11.New` nil-check
(`ErrCannotOpenPKCS11`), `Initialize` (its error propagated), `GetSlotList`
(its error propagated), `findToken` (its error propagated), the hardware
session-limit check against `token.MaxRwSessionCount` (with Go's
`uint(instance.cfg.MaxSessions)` conversion made explicit by `goUint`), and
on success a context holding the config pointer `p`, the found slot and
token, and the `NewResourcePool(factory, config.MaxSessions,
config.MaxSessions, config.IdleTimeout)` parameters. -/
def configureSteps (w : P11World) (p : Nat) (config : PKCS11Config) :
    ConfigureResult :=
  if w.newOk config.path then
    match w.initResult with
    | some e => .err e
    | none =>
      match w.slotList with
      | .error e => .err e
      | .ok slots =>
        match findToken w.getTokenInfo slots config.tokenSerial config.tokenLabel with
        | .error e => .err e
        | .ok (slot, token) =>
          if token.maxRwSessionCount > 0 ∧
              goUint config.maxSessions > token.maxRwSessionCount then
            .err (sessionLimitError config.maxSessions token.maxRwSessionCount)
          else
            .ok { cfg := p, slot := slot, token := token,
                  pool := { capacity := config.maxSessions,
                            maxCap := config.maxSessions,
                            idleTimeout := config.idleTimeout } }
  else .err ErrCannotOpenPKCS11

/-- `Configure` from `crypto11.go` lines 213-254. The config argument is a
possibly-nil pointer into `heap`; the first statement reads
`config.MaxSessions`, so a nil pointer panics before anything else happens.
The defaulting mutation is written back through the pointer at the top, so
the caller's struct holds `effectiveConfig config0` on every path past the
dereference (the returned heap is the same in all of them); the rest of the
function is `configureSteps` on that mutated value. -/
def Configure (w : P11World) (heap : Heap) (configPtr : Option Nat) :
    ConfigureResult × Heap :=
  match configPtr with
  | none => (.panicNilDeref, heap)
  | some p =>
    match heap p with
    | none => (.panicNilDeref, heap)
    | some config0 =>
      (configureSteps w p (effectiveConfig config0),
       fun q => if q = p then some (effectiveConfig config0) else heap q)

/-- The observable calls `Context.Close` makes on its resources, in order. -/
inductive CloseEvent where
  | poolClose
  | finalize
  | destroy
deriving DecidableEq

/-- `Context.Close` from `crypto11.go` lines 290-302: `c.pool.Close()`, then
`c.ctx.Finalize()`; a `Finalize` error is returned immediately (so
`c.ctx.Destroy()` is skipped); otherwise `Destroy` runs and nil is
returned. The result is the ordered list of calls made and the returned
error. -/
def contextClose (finalizeResult : Option GoError) :
    List CloseEvent × Option GoError :=
  match finalizeResult with
  | some e => ([.poolClose, .finalize], some e)
  | none => ([.poolClose, .finalize, .destroy], none)

/-! Concrete fixtures used by witnesses and counterexamples. -/

/-- Two-slot token layout from the spec's Token Locator scenario:
slot 0 holds `{serial:"A", label:"x"}`, slot 1 holds `{serial:"B", label:"y"}`. -/
def twoSlotInfo : Nat → Except GoError TokenInfo := fun s =>
  if s = 0 then .ok ⟨"A", "x", 0⟩
  else if s = 1 then .ok ⟨"B", "y", 0⟩
  else .error (.external "no such slot")

/-- A config requesting 2000 sessions (the spec's session-limit scenario). -/
def cfg2000 : PKCS11Config :=
  { path := "/usr/lib/softhsm.so", tokenSerial := "A", tokenLabel := "x",
    pin := "1234", maxSessions := 2000, idleTimeout := 5, poolWaitTimeout := 7 }

/-- A heap holding `cfg2000` at address 0. -/
def heap2000 : Heap := fun q => if q = 0 then some cfg2000 else none

/-- A library world whose single token advertises a hardware maximum of 1000
read-write sessions. -/
def world1000 : P11World :=
  { newOk := fun _ => true, initResult := none, slotList := .ok [0],
    getTokenInfo := fun s =>
      if s = 0 then .ok ⟨"A", "x", 1000⟩ else .error (.external "no such slot") }

/-- A config with `MaxSessions` left at 0 (unset). -/
def cfgUnset : PKCS11Config :=
  { path := "/usr/lib/softhsm.so", tokenSerial := "A", tokenLabel := "x",
    pin := "1234", maxSessions := 0, idleTimeout := 5, poolWaitTimeout := 7 }

/-- A heap holding `cfgUnset` at address 0. -/
def heapUnset : Heap := fun q => if q = 0 then some cfgUnset else none

/-- A library world whose single token advertises no session limit. -/
def worldNoLimit : P11World :=
  { newOk := fun _ => true, initResult := none, slotList := .ok [0],
    getTokenInfo := twoSlotInfo }

/-- Token metadata where slot 1 fails with a device error while slot 2 holds
a token whose serial would match a lookup for "B". -/
def failSlotInfo : Nat → Except GoError TokenInfo := fun t =>
  if t = 0 then .ok ⟨"A", "x", 0⟩
  else if t = 1 then .error (.external "CKR_DEVICE_ERROR")
  else .ok ⟨"B", "y", 0⟩

/-- A config requesting 5 sessions with an idle timeout of 9. -/
def cfg5 : PKCS11Config :=
  { path := "/usr/lib/softhsm.so", tokenSerial := "A", tokenLabel := "x",
    pin := "1234", maxSessions := 5, idleTimeout := 9, poolWaitTimeout := 7 }

/-- A heap holding `cfg5` at address 0. -/
def heap5 : Heap := fun q => if q = 0 then some cfg5 else none

/-- The context `Configure` builds for `cfg5` against `worldNoLimit`. -/
def ctx5 : Context :=
  { cfg := 0, slot := 0, token := ⟨"A", "x", 0⟩,
    pool := { capacity := 5, maxCap := 5, idleTimeout := 9 } }

/-- The context `Configure` builds for `cfgUnset` against `worldNoLimit`. -/
def ctxUnset : Context :=
  { cfg := 0, slot := 0, token := ⟨"A", "x", 0⟩,
    pool := { capacity := 1024, maxCap := 1024, idleTimeout := 5 } }

/-! Theorems. -/

/-- The `MaxSessions` defaulting touches no other field of the config. -/
theorem effectiveConfig_fields (c : PKCS11Config) :
    (effectiveConfig c).path = c.path ∧
    (effectiveConfig c).tokenSerial = c.tokenSerial ∧
    (effectiveConfig c).tokenLabel = c.tokenLabel ∧
    (effectiveConfig c).pin = c.pin ∧
    (effectiveConfig c).idleTimeout = c.idleTimeout ∧
    (effectiveConfig c).poolWaitTimeout = c.poolWaitTimeout := by
  unfold effectiveConfig
  split <;> exact ⟨rfl, rfl, rfl, rfl, rfl, rfl⟩

/-- The heap `Configure` returns: the defaulted config written through the
caller's pointer, everything else untouched. -/
theorem Configure_heap (w : P11World) (heap : Heap) (p : Nat)
    (config0 : PKCS11Config) (hp : heap p = some config0) :
    (Configure w heap (some p)).2 =
      fun q => if q = p then some (effectiveConfig config0) else heap q := by
  simp only [Configure, hp]

/-- The result `Configure` returns is `configureSteps` on the defaulted
config. -/
theorem Configure_fst (w : P11World) (heap : Heap) (p : Nat)
    (config0 : PKCS11Config) (hp : heap p = some config0) :
    (Configure w heap (some p)).1 =
      configureSteps w p (effectiveConfig config0) := by
  simp only [Configure, hp]

/-- Evaluation of `configureSteps` once the library calls up to `findToken`
are pinned down: only the session-limit check remains. -/
theorem configureSteps_run (w : P11World) (p : Nat) (config : PKCS11Config)
    (slots : List Nat) (s : Nat) (t : TokenInfo)
    (h1 : w.newOk config.path = true) (h2 : w.initResult = none)
    (h3 : w.slotList = .ok slots)
    (h4 : findToken w.getTokenInfo slots config.tokenSerial config.tokenLabel
        = .ok (s, t)) :
    configureSteps w p config =
      if t.maxRwSessionCount > 0 ∧
          goUint config.maxSessions > t.maxRwSessionCount then
        .err (sessionLimitError config.maxSessions t.maxRwSessionCount)
      else .ok { cfg := p, slot := s, token := t,
                 pool := { capacity := config.maxSessions,
                           maxCap := config.maxSessions,
                           idleTimeout := config.idleTimeout } } := by
  simp only [configureSteps, h1, h2, h3, h4, if_true]

/-- Inversion: a successful `configureSteps` outcome is the context built
from the config's `maxSessions` and `idleTimeout` and the found slot and
token. -/
theorem configureSteps_ok_inv (w : P11World) (p : Nat)
    (config : PKCS11Config) (c : Context)
    (h : configureSteps w p config = .ok c) :
    ∃ s t, c = { cfg := p, slot := s, token := t,
                 pool := { capacity := config.maxSessions,
                           maxCap := config.maxSessions,
                           idleTimeout := config.idleTimeout } } := by
  unfold configureSteps at h
  split at h
  · split at h
    · cases h
    · split at h
      · cases h
      · split at h
        · cases h
        · split at h
          · cases h
          · injection h with h
            exact ⟨_, _, h.symm⟩
  · cases h

/-- Helper for C1: when token metadata is available for every candidate slot,
`findToken` returns exactly the first slot matching the requested serial or
label (as described by the spec-worded `specFirstMatch`), and
`ErrTokenNotFound` when no slot matches. -/
theorem findToken_spec_aux (g : Nat → Except GoError TokenInfo)
    (serial label : String) (slots : List Nat)
    (h : ∀ s ∈ slots, ∃ ti, g s = .ok ti) :
    (∀ s, specFirstMatch g slots serial label = some s →
        ∃ ti, g s = .ok ti ∧ findToken g slots serial label = .ok (s, ti)) ∧
    (specFirstMatch g slots serial label = none →
        findToken g slots serial label = .error ErrTokenNotFound) := by
  induction slots with
  | nil =>
    exact ⟨fun s hs => by simp [specFirstMatch] at hs, fun _ => rfl⟩
  | cons a rest ih =>
    obtain ⟨ti, hti⟩ := h a (List.mem_cons_self a rest)
    have hrest := ih fun s hs => h s (List.mem_cons_of_mem a hs)
    by_cases hm : ti.serialNumber = serial ∨ ti.label = label
    · have hfind : specFirstMatch g (a :: rest) serial label = some a := by
        simp [specFirstMatch, List.find?_cons, hti, hm]
      have hft : findToken g (a :: rest) serial label = .ok (a, ti) := by
        rcases hm with hs1 | hl1
        · simp [findToken, hti, hs1]
        · by_cases hs1 : ti.serialNumber = serial
          · simp [findToken, hti, hs1]
          · simp [findToken, hti, hs1, hl1]
      refine ⟨fun s hs => ?_, fun hn => ?_⟩
      · rw [hfind] at hs
        injection hs with hs
        subst hs
        exact ⟨ti, hti, hft⟩
      · rw [hfind] at hn
        cases hn
    · push_neg at hm
      obtain ⟨hs1, hl1⟩ := hm
      have hfind : specFirstMatch g (a :: rest) serial label =
          specFirstMatch g rest serial label := by
        simp [specFirstMatch, List.find?_cons, hti, hs1, hl1]
      have hft : findToken g (a :: rest) serial label =
          findToken g rest serial label := by
        simp [findToken, hti, hs1, hl1]
      rw [hfind, hft]
      exact hrest

/-- Claim C1: `findToken`, given an ordered list of candidate slots, a serial
number and a label, returns the first slot whose token's serial number equals
the requested serial or whose label equals the requested label (serial checked
before label per slot, so an earlier slot matching only by label beats a later
slot matching by serial), and returns `ErrTokenNotFound` after exhausting the
list. Includes the spec scenario on slots `[{A,x},{B,y}]`: serial "B" with a
non-matching label yields the second slot; label "x" with no serial match
yields the first slot; serial "Z" with label "z" yields `ErrTokenNotFound`;
and serial "B" with label "x" yields the first slot. -/
theorem findToken_first_slot_matching
    (g : Nat → Except GoError TokenInfo) (slots : List Nat)
    (serial label : String) (h : ∀ s ∈ slots, ∃ ti, g s = .ok ti) :
    ((∀ s, specFirstMatch g slots serial label = some s →
        ∃ ti, g s = .ok ti ∧ findToken g slots serial label = .ok (s, ti)) ∧
     (specFirstMatch g slots serial label = none →
        findToken g slots serial label = .error ErrTokenNotFound)) ∧
    findToken twoSlotInfo [0, 1] "B" "q" = .ok (1, ⟨"B", "y", 0⟩) ∧
    findToken twoSlotInfo [0, 1] "Z" "x" = .ok (0, ⟨"A", "x", 0⟩) ∧
    findToken twoSlotInfo [0, 1] "Z" "z" = .error ErrTokenNotFound ∧
    findToken twoSlotInfo [0, 1] "B" "x" = .ok (0, ⟨"A", "x", 0⟩) :=
  ⟨findToken_spec_aux g serial label slots h, rfl, rfl, rfl, rfl⟩

/-- Witness for C1 at the spec scenario: serial "Z", label "z" on the
two-slot layout finds nothing. -/
theorem findToken_first_slot_matching_witness :
    findToken twoSlotInfo [0, 1] "Z" "z" = .error ErrTokenNotFound :=
  ((findToken_first_slot_matching twoSlotInfo [0, 1] "Z" "z" (by
    intro s hs
    simp at hs
    rcases hs with h0 | h1
    · exact h0 ▸ ⟨⟨"A", "x", 0⟩, rfl⟩
    · exact h1 ▸ ⟨⟨"B", "y", 0⟩, rfl⟩)).1).2 (by decide)

/-- Helper for C10: a `GetTokenInfo` failure at slot `s` is returned
regardless of what comes after `s` in the list, provided the slots before
`s` succeed without matching. -/
theorem findToken_error_aux (g : Nat → Except GoError TokenInfo)
    (serial label : String) (s : Nat) (e : GoError) (post : List Nat)
    (hs : g s = .error e) (pre : List Nat)
    (hpre : ∀ t ∈ pre, ∃ ti, g t = .ok ti ∧
        ti.serialNumber ≠ serial ∧ ti.label ≠ label) :
    findToken g (pre ++ s :: post) serial label = .error e := by
  induction pre with
  | nil => simp [findToken, hs]
  | cons a rest ih =>
    obtain ⟨ti, hti, hs1, hl1⟩ := hpre a (List.mem_cons_self a rest)
    have htail := ih fun t ht => hpre t (List.mem_cons_of_mem a ht)
    simp [findToken, hti, hs1, hl1]
    exact htail

/-- Claim C10: if `GetTokenInfo` fails for a candidate slot, `findToken`
returns that error immediately without examining the remaining slots — a
later slot that would have matched is never found, and the result is the
metadata error rather than `ErrTokenNotFound`. -/
theorem findToken_metadata_error_short_circuits
    (g : Nat → Except GoError TokenInfo) (serial label : String)
    (pre post : List Nat) (s : Nat) (e : GoError)
    (hpre : ∀ t ∈ pre, ∃ ti, g t = .ok ti ∧
        ti.serialNumber ≠ serial ∧ ti.label ≠ label)
    (hs : g s = .error e) :
    findToken g (pre ++ s :: post) serial label = .error e ∧
    (e ≠ ErrTokenNotFound →
      findToken g (pre ++ s :: post) serial label ≠ .error ErrTokenNotFound) := by
  have h1 := findToken_error_aux g serial label s e post hs pre hpre
  refine ⟨h1, fun hne hc => hne ?_⟩
  rw [h1] at hc
  injection hc

/-- Witness for C10: slot 1 fails with a device error while slot 2's token
matches serial "B"; the lookup surfaces the device error. -/
theorem findToken_metadata_error_short_circuits_witness :
    findToken failSlotInfo [0, 1, 2] "B" "nolabel" =
      .error (.external "CKR_DEVICE_ERROR") :=
  (findToken_metadata_error_short_circuits failSlotInfo "B" "nolabel"
    [0] [2] 1 (.external "CKR_DEVICE_ERROR")
    (by
      intro t ht
      simp at ht
      subst ht
      exact ⟨⟨"A", "x", 0⟩, rfl, by decide, by decide⟩)
    rfl).1

/-- Claim C3: when the selected token advertises a positive hardware maximum
of read-write sessions and the configured (defaulted) maximum exceeds it,
`Configure` returns the session-limit error and no context; when the token
advertises no maximum (zero), the validation never fires and `Configure`
succeeds (given the preceding library calls succeeded). -/
theorem configure_session_limit (w : P11World) (heap : Heap) (p : Nat)
    (config0 : PKCS11Config) (slots : List Nat) (s : Nat) (t : TokenInfo)
    (hp : heap p = some config0)
    (hnew : w.newOk (effectiveConfig config0).path = true)
    (hinit : w.initResult = none)
    (hslots : w.slotList = .ok slots)
    (hfind : findToken w.getTokenInfo slots (effectiveConfig config0).tokenSerial
        (effectiveConfig config0).tokenLabel = .ok (s, t)) :
    (t.maxRwSessionCount > 0 →
      goUint (effectiveConfig config0).maxSessions > t.maxRwSessionCount →
      ((Configure w heap (some p)).1 =
          .err (sessionLimitError (effectiveConfig config0).maxSessions
            t.maxRwSessionCount) ∧
        ∀ c, (Configure w heap (some p)).1 ≠ .ok c)) ∧
    (t.maxRwSessionCount = 0 →
      (Configure w heap (some p)).1 =
        .ok { cfg := p, slot := s, token := t,
              pool := { capacity := (effectiveConfig config0).maxSessions,
                        maxCap := (effectiveConfig config0).maxSessions,
                        idleTimeout := (effectiveConfig config0).idleTimeout } }) := by
  have hrun := configureSteps_run w p (effectiveConfig config0) slots s t
    hnew hinit hslots hfind
  have hres := Configure_fst w heap p config0 hp
  constructor
  · intro hpos hgt
    rw [hres, hrun, if_pos ⟨hpos, hgt⟩]
    exact ⟨rfl, fun c hc => nomatch hc⟩
  · intro hz
    rw [hres, hrun, if_neg (by simp [hz])]

/-- Witness for C3 at the spec scenario: requested max 2000 against a token
advertising 1000 fails with the session-limit error. -/
theorem configure_session_limit_witness :
    (Configure world1000 heap2000 (some 0)).1 =
      .err (sessionLimitError 2000 1000) ∧
    ∀ c, (Configure world1000 heap2000 (some 0)).1 ≠ .ok c :=
  (configure_session_limit world1000 heap2000 0 cfg2000 [0] 0
    ⟨"A", "x", 1000⟩ rfl rfl rfl rfl rfl).1 (by decide) (by decide)

/-- Claim C6: on every successful `Configure`, the session pool is built
with floor and ceiling both equal to the configured (defaulted) maximum
session count and with the configured idle timeout. -/
theorem configure_pool_sizing (w : P11World) (heap : Heap) (p : Nat)
    (config0 : PKCS11Config) (c : Context)
    (hp : heap p = some config0)
    (h : (Configure w heap (some p)).1 = .ok c) :
    c.pool.capacity = (effectiveConfig config0).maxSessions ∧
    c.pool.maxCap = (effectiveConfig config0).maxSessions ∧
    c.pool.idleTimeout = config0.idleTimeout := by
  rw [Configure_fst w heap p config0 hp] at h
  obtain ⟨s, t, rfl⟩ := configureSteps_ok_inv w p (effectiveConfig config0) c h
  exact ⟨rfl, rfl, (effectiveConfig_fields config0).2.2.2.2.1⟩

/-- Witness for C6: configuring `cfg5` (max 5, idle timeout 9) against a
token with no session limit yields a pool with floor 5, ceiling 5, idle
timeout 9. -/
theorem configure_pool_sizing_witness :
    ctx5.pool.capacity = 5 ∧ ctx5.pool.maxCap = 5 ∧
      ctx5.pool.idleTimeout = 9 :=
  configure_pool_sizing worldNoLimit heap5 0 cfg5 ctx5 rfl rfl

/-- Claim C7: when the configured maximum session count is unset (zero),
`Configure` uses `DefaultMaxSessions = 1024`: the caller's struct is set to
1024, the session-limit validation compares 1024 against the token's
hardware maximum, and the pool is sized 1024. -/
theorem configure_default_max_sessions (w : P11World) (heap : Heap) (p : Nat)
    (config0 : PKCS11Config) (hp : heap p = some config0)
    (h0 : config0.maxSessions = 0) :
    DefaultMaxSessions = 1024 ∧
    (effectiveConfig config0).maxSessions = 1024 ∧
    (Configure w heap (some p)).2 p = some { config0 with maxSessions := 1024 } ∧
    (∀ c, (Configure w heap (some p)).1 = .ok c →
      c.pool.capacity = 1024 ∧ c.pool.maxCap = 1024) ∧
    (∀ slots s t, w.newOk config0.path = true → w.initResult = none →
      w.slotList = .ok slots →
      findToken w.getTokenInfo slots config0.tokenSerial config0.tokenLabel
        = .ok (s, t) →
      t.maxRwSessionCount > 0 → t.maxRwSessionCount < 1024 →
      (Configure w heap (some p)).1 =
        .err (sessionLimitError 1024 t.maxRwSessionCount)) := by
  have heff : effectiveConfig config0 = { config0 with maxSessions := 1024 } := by
    unfold effectiveConfig
    rw [if_pos h0]
    rfl
  have hgo : goUint 1024 = 1024 := by decide
  refine ⟨rfl, by rw [heff], ?_, ?_, ?_⟩
  · rw [Configure_heap w heap p config0 hp, heff]
    simp
  · intro c h
    rw [Configure_fst w heap p config0 hp] at h
    obtain ⟨s, t, rfl⟩ := configureSteps_ok_inv w p (effectiveConfig config0) c h
    rw [heff]
    exact ⟨rfl, rfl⟩
  · intro slots s t hnew hinit hslots hfind hpos hlt
    have hrun := configureSteps_run w p (effectiveConfig config0) slots s t
      (by rw [heff]; exact hnew) hinit hslots (by rw [heff]; exact hfind)
    rw [Configure_fst w heap p config0 hp, hrun,
      if_pos ⟨hpos, by rw [heff]; show goUint 1024 > _; rw [hgo]; exact hlt⟩, heff]

/-- Witness for C7: configuring with `MaxSessions` unset writes 1024 into
the caller's struct. -/
theorem configure_default_max_sessions_witness :
    (Configure worldNoLimit heapUnset (some 0)).2 0 =
      some { cfgUnset with maxSessions := 1024 } :=
  (configure_default_max_sessions worldNoLimit heapUnset 0 cfgUnset
    rfl rfl).2.2.1

/-- Claim C8: `Configure` called with a nil config pointer dereferences nil
at the very first field access (`config.MaxSessions`) and faults — it
neither returns an error value nor any context, and nothing else (in
particular no heap write) has happened. -/
theorem configure_nil_config_panics (w : P11World) (heap : Heap) :
    Configure w heap none = (.panicNilDeref, heap) ∧
    (∀ e, (Configure w heap none).1 ≠ .err e) ∧
    (∀ c, (Configure w heap none).1 ≠ .ok c) := by
  refine ⟨rfl, fun e h => ?_, fun c h => ?_⟩ <;> simp [Configure] at h

/-- Claim C9: `Configure` mutates the caller-supplied config in place: after
the call the caller's struct holds the defaulted value (1024 written into
`MaxSessions` exactly when it was 0, every other field unchanged), no other
heap cell is touched, and the returned context retains the pointer to that
same struct. -/
theorem configure_mutates_caller_config (w : P11World) (heap : Heap)
    (p : Nat) (config0 : PKCS11Config) (hp : heap p = some config0) :
    ((Configure w heap (some p)).2 p = some (effectiveConfig config0)) ∧
    (config0.maxSessions = 0 →
      (effectiveConfig config0).maxSessions = DefaultMaxSessions) ∧
    (config0.maxSessions ≠ 0 → effectiveConfig config0 = config0) ∧
    ((effectiveConfig config0).path = config0.path ∧
     (effectiveConfig config0).tokenSerial = config0.tokenSerial ∧
     (effectiveConfig config0).tokenLabel = config0.tokenLabel ∧
     (effectiveConfig config0).pin = config0.pin ∧
     (effectiveConfig config0).idleTimeout = config0.idleTimeout ∧
     (effectiveConfig config0).poolWaitTimeout = config0.poolWaitTimeout) ∧
    (∀ q, q ≠ p → (Configure w heap (some p)).2 q = heap q) ∧
    (∀ c, (Configure w heap (some p)).1 = .ok c → c.cfg = p) := by
  refine ⟨?_, ?_, ?_, effectiveConfig_fields config0, ?_, ?_⟩
  · rw [Configure_heap w heap p config0 hp]
    simp
  · intro h0
    unfold effectiveConfig
    rw [if_pos h0]
  · intro h0
    unfold effectiveConfig
    rw [if_neg h0]
  · intro q hq
    rw [Configure_heap w heap p config0 hp]
    simp [hq]
  · intro c h
    rw [Configure_fst w heap p config0 hp] at h
    obtain ⟨s, t, rfl⟩ := configureSteps_ok_inv w p (effectiveConfig config0) c h
    rfl

/-- Witness for C9: configuring `cfgUnset` mutates the caller's struct at
address 0 to the defaulted config and leaves address 1 untouched. -/
theorem configure_mutates_caller_config_witness :
    (Configure worldNoLimit heapUnset (some 0)).2 0 =
      some (effectiveConfig cfgUnset) ∧
    (Configure worldNoLimit heapUnset (some 0)).2 1 = none := by
  have h := configure_mutates_caller_config worldNoLimit heapUnset 0 cfgUnset rfl
  exact ⟨h.1, h.2.2.2.2.1 1 (by decide)⟩

/-- Counterexample for C4: the session-limit failure is a freshly formatted
`fmt.Errorf` value, not one of the package-level sentinel errors — at the
spec's own scenario (requested 2000, hardware maximum 1000), `Configure`
returns an error that no caller can match by sentinel equality. -/
theorem configure_error_not_sentinel_cex :
    (Configure world1000 heap2000 (some 0)).1 =
      .err (sessionLimitError 2000 1000) ∧
    isSentinel (sessionLimitError 2000 1000) = false :=
  ⟨rfl, rfl⟩

/-- Claim C4 (amended): the five declared error variables are opaque
sentinel values callers can compare against, but the session-limit failure
is a freshly formatted (non-sentinel) error, and so not every error in the
taxonomy is a sentinel. -/
theorem declared_errors_are_sentinels :
    isSentinel ErrTokenNotFound = true ∧
    isSentinel ErrKeyNotFound = true ∧
    isSentinel ErrCannotOpenPKCS11 = true ∧
    isSentinel ErrCannotGetRandomData = true ∧
    isSentinel ErrUnsupportedKeyType = true ∧
    ∀ (m : Int) (n : Nat), isSentinel (sessionLimitError m n) = false :=
  ⟨rfl, rfl, rfl, rfl, rfl, fun _ _ => rfl⟩

/-- Counterexample for C2: when `Finalize` fails, `Close` returns the error
with the pool already closed, but `Destroy` is never called — the
underlying library connection is not released. -/
theorem close_finalize_failure_skips_destroy_cex :
    (contextClose (some (GoError.external "CKR_GENERAL_ERROR"))).2 =
      some (GoError.external "CKR_GENERAL_ERROR") ∧
    CloseEvent.poolClose ∈
      (contextClose (some (GoError.external "CKR_GENERAL_ERROR"))).1 ∧
    CloseEvent.destroy ∉
      (contextClose (some (GoError.external "CKR_GENERAL_ERROR"))).1 :=
  ⟨rfl, by decide, by decide⟩

/-- Claim C2 (amended): `Close` closes the session pool first, then
finalizes the library; on success it destroys the library connection and
returns nil, while a finalization failure is returned to the caller with
the pool already closed but with `Destroy` skipped (the connection is not
released). -/
theorem close_order_and_finalize_failure :
    contextClose none =
      ([.poolClose, .finalize, .destroy], none) ∧
    ∀ e, contextClose (some e) = ([.poolClose, .finalize], some e) :=
  ⟨rfl, fun _ => rfl⟩

end Crypto11
